import Mathlib

/-!
Shallow embedding of the market-briefing aggregation pipeline of
`src/build/fetch-data.js` (xiiyaa-dashboard).

Modelling conventions:
* JavaScript numbers that can be `undefined`/`null`, `NaN`, or finite are
  modelled by the type `JNum` below; exact rationals stand in for IEEE
  doubles (double rounding artifacts are not modelled).
* A division whose denominator is zero is modelled as `JNum.nan`
  (JavaScript would produce an infinity there; none of the properties
  proved below depend on that corner).
* Network / IO boundaries are abstracted: each provider client's parsed
  response enters the embedded functions as an explicit argument
  (`Option` of a record), exactly at the point where the source code has
  finished its `fetch`/JSON-parsing and starts its own pure logic.
-/

/-- Model of a JavaScript numeric value as it flows through
`fetch-data.js`: absent (`undefined`/`null`), `NaN`, or a finite number. -/
inductive JNum where
  | undef : JNum
  | nan : JNum
  | num : ℚ → JNum
deriving DecidableEq, Repr

namespace JNum

/-- JS test `x == null || isNaN(x)` used by the classifiers. -/
def isBad : JNum → Bool
  | .num _ => false
  | _ => true

/-- JS nullish coalescing `a ?? b` (falls through only on `undefined`/`null`;
`NaN` is not nullish). -/
def coalesce : JNum → JNum → JNum
  | .undef, b => b
  | a, _ => a

/-- JS truthiness of a number: `0`, `NaN`, `undefined`, `null` are falsy. -/
def truthy : JNum → Bool
  | .num q => q != 0
  | _ => false

/-- JS `+` on numbers; any non-number operand yields `NaN`. -/
def add : JNum → JNum → JNum
  | .num a, .num b => .num (a + b)
  | _, _ => .nan

/-- JS `-` on numbers. -/
def sub : JNum → JNum → JNum
  | .num a, .num b => .num (a - b)
  | _, _ => .nan

/-- JS `*` on numbers. -/
def mul : JNum → JNum → JNum
  | .num a, .num b => .num (a * b)
  | _, _ => .nan

/-- JS `/` on numbers; division by zero is modelled as `NaN`
(JavaScript yields an infinity). -/
def div : JNum → JNum → JNum
  | .num a, .num b => if b = 0 then .nan else .num (a / b)
  | _, _ => .nan

/-- JS `x >= 0` (false when `x` is `NaN` or absent). -/
def nonneg : JNum → Bool
  | .num q => decide (0 ≤ q)
  | _ => false

end JNum

/-- `pctDir` (fetch-data.js lines 65-68): the three-way tone classifier for
standard instruments. -/
def pctDir (pct : JNum) : String :=
  match pct with
  | .num p => if p > 3/10 then "up" else if p < -(3/10) then "down" else "flat"
  | _ => "flat"

/-- `toneFromPct` (lines 71-78): the five-band tone mapping used for the
Global Markets quote providers, collapsed onto up/down/flat. -/
def toneFromPct (pct : JNum) : String :=
  match pct with
  | .num p =>
    if p ≥ 1/2 then "up"
    else if p ≥ 15/100 then "up"
    else if p ≥ -(15/100) then "flat"
    else if p ≥ -(49/100) then "down"
    else "down"
  | _ => "flat"

/-- `vixToneFromPct` (lines 81-88): the banded volatility-style classifier. -/
def vixToneFromPct (pct : JNum) : String :=
  match pct with
  | .num p =>
    if p ≥ 1/2 then "elevated"
    else if p ≥ 15/100 then "elevated"
    else if p ≥ -(15/100) then "steady"
    else if p ≥ -(49/100) then "subdued"
    else "subdued"
  | _ => "steady"

/-- `vixLabel` (lines 415-418): the three-way volatility-style classifier. -/
def vixLabel (changePct : JNum) : String :=
  match changePct with
  | .num p => if p > 3/10 then "elevated" else if p < -(3/10) then "subdued" else "steady"
  | _ => "steady"

/-- One index/benchmark entry inside the Global Markets segment.
`changePct := JNum.undef` models a JS object without that field. -/
structure Region where
  label : String
  direction : String
  vixStyle : Bool := false
  changePct : JNum := .undef
  placeholder : Bool := false
deriving DecidableEq, Repr

/-- One priced (or name-only) instrument inside a segment. -/
structure Ticker where
  symbol : String
  name : String
  price : JNum := .undef
  changePct : JNum := .undef
deriving DecidableEq, Repr

/-- One market-category segment of the briefing. -/
structure Segment where
  name : String
  direction : String
  description : String
  regions : Option (List Region) := none
  tickers : Option (List Ticker) := none
deriving DecidableEq, Repr

/-- Fear & Greed value/label pair. -/
structure FearGreed where
  value : ℤ
  label : String
deriving DecidableEq, Repr

/-- One top headline. -/
structure Headline where
  source : String
  title : String
deriving DecidableEq, Repr

/-- The root briefing record written to `data/briefing.json`. -/
structure Briefing where
  bigPicture : String
  marketMood : String
  fearGreed : FearGreed
  trendingNews : List String
  topHeadlines : List Headline
  segments : List Segment
  updatedAt : String
  date : Option String := none
deriving DecidableEq, Repr

/-- `FALLBACK` (lines 17-53): the hardcoded baseline record. Its
`updatedAt` is the module-load time, passed here as `loadIso`. -/
def FALLBACK (loadIso : String) : Briefing where
  bigPicture := "Markets are consolidating. Add NEWS_API_KEY for live headlines. See README for setup."
  marketMood := "Neutral"
  fearGreed := { value := 50, label := "Neutral" }
  trendingNews :=
    [ "Markets await key economic data",
      "Fed policy in focus",
      "Add API keys for live headlines" ]
  topHeadlines :=
    [ { source := "Reuters", title := "Markets digest Fed decision" },
      { source := "Bloomberg", title := "Add NEWS_API_KEY for live data" } ]
  segments :=
    [ { name := "Global Markets", direction := "flat",
        description := "Market data temporarily unavailable.",
        regions := some
          [ { label := "S&P 500", direction := "flat", placeholder := true },
            { label := "Europe", direction := "flat", placeholder := true },
            { label := "Asia", direction := "flat", placeholder := true },
            { label := "VIX", direction := "steady", vixStyle := true, placeholder := true } ] },
      { name := "Currencies", direction := "flat", description := "Add API keys for live data." },
      { name := "Bonds & Rates", direction := "flat", description := "Government bonds and credit." },
      { name := "Digital Assets", direction := "flat", description := "Add API keys for live data." },
      { name := "Commodities", direction := "flat", description := "Gold, silver, copper data temporarily unavailable." },
      { name := "Energy & Materials", direction := "flat", description := "Add API keys for live data." },
      { name := "U.S. Growth & Tech", direction := "flat", description := "Add API keys for live data." },
      { name := "Sector Performance", direction := "flat", description := "S&P 500 sector ETFs." },
      { name := "Real Estate", direction := "flat", description := "REITs and property." },
      { name := "Top Movers", direction := "flat", description := "Biggest gainers and losers." } ]
  updatedAt := loadIso

/-- `GLOBAL_MARKETS_PLACEHOLDERS` (lines 526-536). -/
def GLOBAL_MARKETS_PLACEHOLDERS : List Region :=
  [ { label := "S&P 500", direction := "flat", placeholder := true },
    { label := "Dow Jones", direction := "flat", placeholder := true },
    { label := "Nasdaq", direction := "flat", placeholder := true },
    { label := "Euro Stoxx 50", direction := "flat", placeholder := true },
    { label := "DAX", direction := "flat", placeholder := true },
    { label := "Nikkei 225", direction := "flat", placeholder := true },
    { label := "Hang Seng", direction := "flat", placeholder := true },
    { label := "Shanghai Composite", direction := "flat", placeholder := true },
    { label := "VIX", direction := "steady", vixStyle := true, placeholder := true } ]

/-- `BONDS_RATES_PLACEHOLDERS` (lines 539-552). -/
def BONDS_RATES_PLACEHOLDERS : List Ticker :=
  [ { symbol := "US10Y", name := "U.S. 10Y Treasury" },
    { symbol := "US2Y", name := "U.S. 2Y Treasury" },
    { symbol := "DE10Y", name := "German 10Y Bund" },
    { symbol := "DE2Y", name := "German 2Y Schatz" },
    { symbol := "JP10Y", name := "Japan 10Y Bond" },
    { symbol := "JP2Y", name := "Japan 2Y Bond" },
    { symbol := "CN10Y", name := "China 10Y Bond" },
    { symbol := "CN2Y", name := "China 2Y Bond" },
    { symbol := "TIP", name := "US TIPS" },
    { symbol := "TLT", name := "Long Duration Treasuries" },
    { symbol := "LQD", name := "Investment Grade Credit" },
    { symbol := "HYG", name := "High Yield Credit" } ]

/-- `CURRENCY_PLACEHOLDERS` (lines 555-564). -/
def CURRENCY_PLACEHOLDERS : List Ticker :=
  [ { symbol := "DXY", name := "U.S. Dollar" },
    { symbol := "EUR/USD", name := "EUR/USD" },
    { symbol := "USD/JPY", name := "USD/JPY" },
    { symbol := "GBP/USD", name := "GBP/USD" },
    { symbol := "CNY/USD", name := "CNY/USD" },
    { symbol := "AUD/USD", name := "AUD/USD" },
    { symbol := "USD/CAD", name := "USD/CAD" },
    { symbol := "USD/CHF", name := "USD/CHF" } ]

/-- `SECTOR_PERFORMANCE_PLACEHOLDERS` (lines 567-577). -/
def SECTOR_PERFORMANCE_PLACEHOLDERS : List Ticker :=
  [ { symbol := "XLK", name := "Technology" },
    { symbol := "XLF", name := "Financials" },
    { symbol := "XLE", name := "Energy" },
    { symbol := "XLV", name := "Health Care" },
    { symbol := "XLY", name := "Consumer Discretionary" },
    { symbol := "XLP", name := "Consumer Staples" },
    { symbol := "XLI", name := "Industrials" },
    { symbol := "XLB", name := "Materials" },
    { symbol := "XLU", name := "Utilities" } ]

/-- `REAL_ESTATE_PLACEHOLDERS` (lines 580-584). -/
def REAL_ESTATE_PLACEHOLDERS : List Ticker :=
  [ { symbol := "VNQ", name := "U.S. REITs" },
    { symbol := "REET", name := "Global Real Estate" },
    { symbol := "IYR", name := "Dow Jones REIT" } ]

/-- `TOP_MOVERS_PLACEHOLDERS` (lines 587-590). -/
def TOP_MOVERS_PLACEHOLDERS : List Ticker :=
  [ { symbol := "▲", name := "Leading" },
    { symbol := "▼", name := "Lagging" } ]

/-- `US_GROWTH_TECH_PLACEHOLDERS` (lines 593-602). -/
def US_GROWTH_TECH_PLACEHOLDERS : List Ticker :=
  [ { symbol := "AAPL", name := "Apple" },
    { symbol := "MSFT", name := "Microsoft" },
    { symbol := "TSLA", name := "Tesla" },
    { symbol := "AMZN", name := "Amazon" },
    { symbol := "GOOGL", name := "Google" },
    { symbol := "META", name := "Meta" },
    { symbol := "SMH", name := "VanEck Semiconductor ETF" },
    { symbol := "SOXX", name := "Semiconductors" } ]

/-- `ENERGY_PLACEHOLDERS` (lines 605-612). -/
def ENERGY_PLACEHOLDERS : List Ticker :=
  [ { symbol := "BRENT", name := "U.K. Oil" },
    { symbol := "WTI", name := "U.S. Oil" },
    { symbol := "NG", name := "U.S. Natural Gas" },
    { symbol := "TTF", name := "EU Natural Gas" },
    { symbol := "COAL", name := "Coal" },
    { symbol := "KRBN", name := "Carbon ETF" } ]

/-- `COMMODITY_PLACEHOLDERS` (lines 615-625). -/
def COMMODITY_PLACEHOLDERS : List Ticker :=
  [ { symbol := "GOLD", name := "Gold" },
    { symbol := "XAG", name := "Silver" },
    { symbol := "COPPER", name := "Copper" },
    { symbol := "HG", name := "Copper" },
    { symbol := "WHEAT", name := "Wheat" },
    { symbol := "CORN", name := "Corn" },
    { symbol := "SOY", name := "Soybeans" },
    { symbol := "COFFEE", name := "Coffee" },
    { symbol := "BCOM", name := "Bloomberg Commodity" } ]

/-- `DIGITAL_ASSETS_ADDITIONAL` (lines 731-737). -/
def DIGITAL_ASSETS_ADDITIONAL : List Ticker :=
  [ { symbol := "DOGE", name := "Dogecoin" },
    { symbol := "SOL", name := "Solana" },
    { symbol := "XRP", name := "XRP" },
    { symbol := "ADA", name := "Cardano" },
    { symbol := "AVAX", name := "Avalanche" } ]

/-- Models `String(n).padStart(2, char0)` on a natural number. -/
def pad2 (n : Nat) : String :=
  if n < 10 then "0" ++ toString n else toString n

/-- Models `Number.prototype.toFixed(2)` on a finite value: round to two
decimals with ties away from zero (IEEE double artifacts not modelled). -/
def toFixed2 (q : ℚ) : String :=
  let n : ℤ := if 0 ≤ q then ⌊q * 100 + 1/2⌋ else -⌊-(q * 100) + 1/2⌋
  let a := n.natAbs
  (if n < 0 then "-" else "") ++ toString (a / 100) ++ "." ++ pad2 (a % 100)

/-- Models `x?.toFixed(2)` interpolated into a template literal. -/
def jsToFixed2 : JNum → String
  | .num q => toFixed2 q
  | .nan => "NaN"
  | .undef => "undefined"

/-- `x >= 0 ? plus : empty` — the sign prefix used in the descriptions. -/
def signPrefix (x : JNum) : String :=
  if x.nonneg then "+" else ""

/-- One raw quote row of the FMP batch-quote response (`fetchFmpGlobalMarkets`,
lines 104-138), after JSON parsing; fields the row lacks are `.undef`. -/
structure FmpQuote where
  changesPercentage : JNum := .undef
  changePercent : JNum := .undef
  change : JNum := .undef
  price : JNum := .undef
deriving DecidableEq, Repr

/-- `FMP_GLOBAL_SYMBOLS` (lines 92-102): (symbol, label, vixStyle). -/
def FMP_GLOBAL_SYMBOLS : List (String × String × Bool) :=
  [ ("^GSPC", "S&P 500", false),
    ("^DJI", "Dow Jones", false),
    ("^IXIC", "Nasdaq", false),
    ("^STOXX50E", "Euro Stoxx 50", false),
    ("^GDAXI", "DAX", false),
    ("^N225", "Nikkei 225", false),
    ("^HSI", "Hang Seng", false),
    ("^SSEC", "Shanghai Composite", false),
    ("^VIX", "VIX", true) ]

/-- The shared guard-and-build tail of the per-symbol region
construction, textually identical in `fetchFmpGlobalMarkets` (lines
120-122) and `fetchYahooQuoteGlobalMarkets` (lines 257-259): a
null-or-NaN percentage yields a placeholder region, a numeric one a
classified region carrying that percentage. -/
def regionFromPct (label : String) (vixStyle : Bool) (pct : JNum) : Region :=
  if pct.isBad then
    { label := label, direction := if vixStyle then "steady" else "flat",
      vixStyle := vixStyle, placeholder := true }
  else
    { label := label,
      direction := if vixStyle then vixToneFromPct pct else toneFromPct pct,
      vixStyle := vixStyle, changePct := pct, placeholder := false }

/-- Per-symbol region construction of `fetchFmpGlobalMarkets`
(lines 116-123). `q` is `bySymbol[symbol]`. -/
def fmpRegion (q : Option FmpQuote) (label : String) (vixStyle : Bool) : Region :=
  match q with
  | none =>
    { label := label, direction := if vixStyle then "steady" else "flat",
      vixStyle := vixStyle, placeholder := true }
  | some q =>
    let pct := q.changesPercentage.coalesce (q.changePercent.coalesce
      (if q.change.truthy && q.price.truthy then
        (q.change.div (q.price.sub q.change)).mul (.num 100) else .undef))
    regionFromPct label vixStyle pct

/-- The `regions` array built by `fetchFmpGlobalMarkets` from the
symbol-indexed response rows. -/
def fmpRegions (bySymbol : String → Option FmpQuote) : List Region :=
  FMP_GLOBAL_SYMBOLS.map fun s => fmpRegion (bySymbol s.1) s.2.1 s.2.2

/-- One successfully parsed Stooq row for a symbol (`fetchStooqGlobalMarkets`
lines 159-182): the guards there ensure `pct` is a finite number. -/
structure StooqResult where
  symbol : String
  label : String
  vixStyle : Bool
  pct : ℚ
deriving DecidableEq, Repr

/-- `STOOQ_GLOBAL_SYMBOLS` (lines 142-152). -/
def STOOQ_GLOBAL_SYMBOLS : List (String × String × Bool) :=
  [ ("^SPX", "S&P 500", false),
    ("^DJI", "Dow Jones", false),
    ("^IXIC", "Nasdaq", false),
    ("^STOXX50E", "Euro Stoxx 50", false),
    ("^GDAXI", "DAX", false),
    ("^N225", "Nikkei 225", false),
    ("^HSI", "Hang Seng", false),
    ("^SSEC", "Shanghai Composite", false),
    ("^VIX", "VIX", true) ]

/-- The daily percentage change computed from the last two Stooq closes
(line 176), reachable only under the guard `prevClose > 0`. -/
def stooqPct (prevClose currClose : ℚ) : ℚ :=
  ((currClose - prevClose) / prevClose) * 100

/-- The `regions` array built by `fetchStooqGlobalMarkets` (lines 186-191). -/
def stooqRegions (results : List StooqResult) : List Region :=
  STOOQ_GLOBAL_SYMBOLS.map fun s =>
    match results.find? (fun x => x.symbol = s.1) with
    | none =>
      { label := s.2.1, direction := if s.2.2 then "steady" else "flat",
        vixStyle := s.2.2, placeholder := true }
    | some r =>
      { label := s.2.1,
        direction := if s.2.2 then vixToneFromPct (.num r.pct) else toneFromPct (.num r.pct),
        vixStyle := s.2.2, changePct := .num r.pct, placeholder := false }

/-- One raw Yahoo quote row (`fetchYahooQuoteGlobalMarkets` /
`quoteToResult`), after JSON parsing. -/
structure YQuote where
  regularMarketPrice : JNum := .undef
  regularMarketChange : JNum := .undef
  regularMarketChangePercent : JNum := .undef
deriving DecidableEq, Repr

/-- `YAHOO_GLOBAL_SYMBOLS` (lines 206-216). -/
def YAHOO_GLOBAL_SYMBOLS : List (String × String × Bool) :=
  [ ("^GSPC", "S&P 500", false),
    ("^DJI", "Dow Jones", false),
    ("^IXIC", "Nasdaq", false),
    ("^STOXX50E", "Euro Stoxx 50", false),
    ("^GDAXI", "DAX", false),
    ("^N225", "Nikkei 225", false),
    ("^HSI", "Hang Seng", false),
    ("^SSEC", "Shanghai Composite", false),
    ("^VIX", "VIX", true) ]

/-- Per-symbol region construction of `fetchYahooQuoteGlobalMarkets`
(lines 251-260). -/
def yahooQuoteRegion (q : Option YQuote) (label : String) (vixStyle : Bool) : Region :=
  match q with
  | none =>
    { label := label, direction := if vixStyle then "steady" else "flat",
      vixStyle := vixStyle, placeholder := true }
  | some q =>
    let price := q.regularMarketPrice
    let change := q.regularMarketChange.coalesce (.num 0)
    let pct := q.regularMarketChangePercent.coalesce
      (if change.truthy && price.truthy then
        (change.div (price.sub change)).mul (.num 100) else .undef)
    regionFromPct label vixStyle pct

/-- The `regions` array built by `fetchYahooQuoteGlobalMarkets`. -/
def yahooQuoteRegions (bySymbol : String → Option YQuote) : List Region :=
  YAHOO_GLOBAL_SYMBOLS.map fun s => yahooQuoteRegion (bySymbol s.1) s.2.1 s.2.2

/-- Output of `fetchAlphaVantageQuote` (lines 320-329) for one symbol:
each field is a `parseFloat` result, so it may be `NaN` (the function
only guards that the raw change string is non-empty). The same record
shape is produced by `quoteToResult` (lines 420-426). -/
structure QuoteResult where
  change : JNum
  changePct : JNum
  price : JNum
deriving DecidableEq, Repr

/-- `quoteToResult` (lines 420-426). -/
def quoteToResult (q : Option YQuote) : Option QuoteResult :=
  match q with
  | none => none
  | some q =>
    if !q.regularMarketPrice.truthy then none
    else
      let price := q.regularMarketPrice
      let change := q.regularMarketChange.coalesce (.num 0)
      let changePct := q.regularMarketChangePercent.coalesce
        (if change.truthy && price.truthy then
          (change.div (price.sub change)).mul (.num 100) else .num 0)
      some { change := change, changePct := changePct, price := price }

/-- The four-entry `regions` array built by `fetchAlphaVantage`
(lines 349-362); `fetchYahooFinance` builds its regions with the
textually identical code (lines 449-462). -/
def avRegions (spy vgk ewj ewh vxx : Option QuoteResult) : List Region :=
  let r1 := match spy with
    | some s => { label := "S&P 500", direction := pctDir s.changePct, changePct := s.changePct }
    | none => { label := "S&P 500", direction := "flat", placeholder := true }
  let r2 := match vgk with
    | some v => { label := "Europe", direction := pctDir v.changePct, changePct := v.changePct }
    | none => { label := "Europe", direction := "flat", placeholder := true }
  let r3 := match ewj, ewh with
    | some j, some h =>
      let avg := (j.changePct.add h.changePct).div (.num 2)
      { label := "Asia", direction := pctDir avg, changePct := avg }
    | some j, none => { label := "Japan", direction := pctDir j.changePct, changePct := j.changePct }
    | none, some h => { label := "Hong Kong", direction := pctDir h.changePct, changePct := h.changePct }
    | none, none => { label := "Asia", direction := "flat", placeholder := true }
  let r4 := match vxx with
    | some v =>
      { label := "VIX", direction := vixLabel v.changePct, changePct := v.changePct, vixStyle := true }
    | none => { label := "VIX", direction := "steady", vixStyle := true, placeholder := true }
  [r1, r2, r3, r4]

/-- The record returned by each successful Global Markets quote provider:
`{ regions, direction, description }`. -/
structure GlobalResult where
  regions : List Region
  direction : String
  description : String
deriving DecidableEq, Repr

/-- The usability test applied to a Global Markets candidate, both in
`main` (lines 851, 854: `!g?.regions?.length || g.regions.every(r =>
r.placeholder)` is its negation) and in `mergeGlobalMarketsRegions`
(line 675: `g?.regions?.length && g.regions.some(r => !r.placeholder)`). -/
def globalUsable (globalData : Option GlobalResult) : Bool :=
  match globalData with
  | some g => !g.regions.isEmpty && g.regions.any (fun r => !r.placeholder)
  | none => false

/-- The provider-priority selection done inline in `main` (lines 842-856):
FMP (only when a key is configured) then Stooq then Yahoo. -/
def selectGlobalMarkets (hasFmp : Bool) (fmpFetch stooqFetch yahooFetch : Option GlobalResult) :
    Option GlobalResult :=
  let g0 := if hasFmp then fmpFetch else none
  let g1 := if !globalUsable g0 then stooqFetch else g0
  if !globalUsable g1 then yahooFetch else g1

/-- The average percentage used for a segment direction:
`tickers.reduce((s, t) => s + (t.changePct ?? 0), 0) / tickers.length`
(lines 638, 645). -/
def avgChangePct (tickers : List Ticker) : JNum :=
  (tickers.foldl (fun (s : JNum) (t : Ticker) => s.add (t.changePct.coalesce (.num 0)))
    (.num 0)).div (.num (tickers.length : ℚ))

/-- The commodity ticker pushes of lines 634-636. -/
def commodityTickers (gold silver copper : Option QuoteResult) : List Ticker :=
  (match gold with
   | some g => [{ symbol := "GLD", name := "Gold", price := g.price, changePct := g.changePct }]
   | none => []) ++
  (match silver with
   | some s => [{ symbol := "SLV", name := "Silver", price := s.price, changePct := s.changePct }]
   | none => []) ++
  (match copper with
   | some c => [{ symbol := "HG", name := "Copper", price := c.price, changePct := c.changePct }]
   | none => [])

/-- The joined description of line 640. -/
def commodityDesc (tickers : List Ticker) : String :=
  String.intercalate ", " (tickers.map fun t =>
    t.name ++ " " ++ signPrefix (t.changePct.coalesce (.num 0)) ++
      jsToFixed2 (t.changePct.coalesce (.num 0)) ++ "%") ++ "."

/-- The output of `fetchCommoditiesYahoo` (lines 508-523): a (possibly
absent) map with the three `quoteToResult` entries. -/
structure Commodities where
  gold : Option QuoteResult := none
  silver : Option QuoteResult := none
  copper : Option QuoteResult := none
deriving DecidableEq, Repr

/-- `mergeCommoditiesIntoSegments` (lines 627-653). -/
def mergeCommoditiesIntoSegments (segments : List Segment) (commodities : Option Commodities) :
    List Segment :=
  if segments.isEmpty then segments else
  let withData : List Ticker × String × String :=
    match commodities with
    | some c =>
      if c.gold.isSome || c.silver.isSome || c.copper.isSome then
        let tickers := commodityTickers c.gold c.silver c.copper
        if !tickers.isEmpty then
          (tickers, pctDir (avgChangePct tickers), commodityDesc tickers)
        else ([], "flat", "Precious metals, grains, and industrial commodities.")
      else ([], "flat", "Precious metals, grains, and industrial commodities.")
    | none => ([], "flat", "Precious metals, grains, and industrial commodities.")
  let final : List Ticker × String × String :=
    if withData.1.isEmpty then
      (COMMODITY_PLACEHOLDERS, pctDir (avgChangePct COMMODITY_PLACEHOLDERS), withData.2.2)
    else withData
  segments.map fun s =>
    if s.name = "Commodities" then
      { s with direction := final.2.1, description := final.2.2, tickers := some final.1 }
    else s

/-- `mergeCurrenciesIntoSegments` (lines 655-662). -/
def mergeCurrenciesIntoSegments (segments : List Segment) : List Segment :=
  if segments.isEmpty then segments else
  segments.map fun s =>
    if s.name = "Currencies" then { s with tickers := some CURRENCY_PLACEHOLDERS } else s

/-- `mergeBondsRatesIntoSegments` (lines 664-671). -/
def mergeBondsRatesIntoSegments (segments : List Segment) : List Segment :=
  if segments.isEmpty then segments else
  segments.map fun s =>
    if s.name = "Bonds & Rates" then { s with tickers := some BONDS_RATES_PLACEHOLDERS } else s

/-- `mergeGlobalMarketsRegions` (lines 673-683). -/
def mergeGlobalMarketsRegions (segments : List Segment) (globalData : Option GlobalResult) :
    List Segment :=
  if segments.isEmpty then segments else
  segments.map fun s =>
    if s.name = "Global Markets" then
      if globalUsable globalData then
        match globalData with
        | some g =>
          { s with regions := some g.regions, direction := g.direction,
                   description := g.description }
        | none => s
      else
        { s with regions := some GLOBAL_MARKETS_PLACEHOLDERS,
                 description := "Session tone and regional risk across major indices." }
    else s

/-- `mergeEnergyIntoSegments` (lines 685-692). -/
def mergeEnergyIntoSegments (segments : List Segment) : List Segment :=
  if segments.isEmpty then segments else
  segments.map fun s =>
    if s.name = "Energy & Materials" then { s with tickers := some ENERGY_PLACEHOLDERS } else s

/-- `mergeUsGrowthTechIntoSegments` (lines 694-701). -/
def mergeUsGrowthTechIntoSegments (segments : List Segment) : List Segment :=
  if segments.isEmpty then segments else
  segments.map fun s =>
    if s.name = "U.S. Growth & Tech" then { s with tickers := some US_GROWTH_TECH_PLACEHOLDERS }
    else s

/-- `mergeSectorPerformanceIntoSegments` (lines 703-710). -/
def mergeSectorPerformanceIntoSegments (segments : List Segment) : List Segment :=
  if segments.isEmpty then segments else
  segments.map fun s =>
    if s.name = "Sector Performance" then
      { s with tickers := some SECTOR_PERFORMANCE_PLACEHOLDERS }
    else s

/-- `mergeRealEstateIntoSegments` (lines 712-719). -/
def mergeRealEstateIntoSegments (segments : List Segment) : List Segment :=
  if segments.isEmpty then segments else
  segments.map fun s =>
    if s.name = "Real Estate" then { s with tickers := some REAL_ESTATE_PLACEHOLDERS } else s

/-- `mergeTopMoversIntoSegments` (lines 721-728). -/
def mergeTopMoversIntoSegments (segments : List Segment) : List Segment :=
  if segments.isEmpty then segments else
  segments.map fun s =>
    if s.name = "Top Movers" then { s with tickers := some TOP_MOVERS_PLACEHOLDERS } else s

/-- One asset of the CoinGecko result (`fetchCoinGecko`, lines 304-318):
the guards there make `price` a real number; `changePct` is
`usd_24h_change ?? 0`, also a real number. -/
structure CoinData where
  price : ℚ
  changePct : ℚ
deriving DecidableEq, Repr

/-- The crypto argument of `mergeCryptoIntoSegments`: the function
guards `crypto?.btc && crypto?.eth`, so both fields are modelled
optional even though `fetchCoinGecko` returns both or `null`. -/
structure CryptoIn where
  btc : Option CoinData := none
  eth : Option CoinData := none
deriving DecidableEq, Repr

/-- `mergeCryptoIntoSegments` (lines 739-759). -/
def mergeCryptoIntoSegments (segments : List Segment) (crypto : Option CryptoIn) :
    List Segment :=
  if segments.isEmpty then segments else
  let withData : List Ticker × String × String :=
    match crypto with
    | some c =>
      match c.btc, c.eth with
      | some b, some e =>
        let avgPct := (b.changePct + e.changePct) / 2
        ([ { symbol := "BTC/USD", name := "Bitcoin", price := .num b.price,
             changePct := .num b.changePct },
           { symbol := "ETH/USD", name := "Ethereum", price := .num e.price,
             changePct := .num e.changePct } ],
         pctDir (.num avgPct),
         "BTC " ++ (if 0 ≤ b.changePct then "+" else "") ++ toFixed2 b.changePct ++
           "%, ETH " ++ (if 0 ≤ e.changePct then "+" else "") ++ toFixed2 e.changePct ++
           "%. Fear & Greed for sentiment.")
      | _, _ => ([], "flat", "Fear & Greed for sentiment.")
    | none => ([], "flat", "Fear & Greed for sentiment.")
  let tickers := withData.1 ++ DIGITAL_ASSETS_ADDITIONAL
  segments.map fun s =>
    if s.name = "Digital Assets" then
      { s with direction := withData.2.1, description := withData.2.2, tickers := some tickers }
    else s

/-- JS `x > 0` on a numeric value (false for `NaN`/absent). -/
def JNum.gtz : JNum → Bool
  | .num q => decide (0 < q)
  | _ => false

/-- JS `x < 0` on a numeric value (false for `NaN`/absent). -/
def JNum.ltz : JNum → Bool
  | .num q => decide (q < 0)
  | _ => false

/-- The per-symbol `quoteToResult` outputs of `fetchYahooFinance`
(lines 428-447): one entry per tracked symbol, `none` when the quote
was missing or unusable. -/
structure YfData where
  spy : Option QuoteResult := none
  qqq : Option QuoteResult := none
  xom : Option QuoteResult := none
  eurusd : Option QuoteResult := none
  vgk : Option QuoteResult := none
  ewj : Option QuoteResult := none
  ewh : Option QuoteResult := none
  vxx : Option QuoteResult := none
deriving DecidableEq, Repr

/-- The `segments` array built by `fetchYahooFinance` (lines 449-505).
The function never returns an absence value: even with every quote
missing it produces this placeholder-flavoured segment list. -/
def fetchYahooFinanceSegments (d : YfData) : List Segment :=
  let regions := avRegions d.spy d.vgk d.ewj d.ewh d.vxx
  let globalDirection :=
    match d.spy with
    | some s => pctDir s.changePct
    | none =>
      if !regions.isEmpty then
        pctDir (match regions.head? with | some r => r.changePct | none => .undef)
      else "flat"
  let globalDesc :=
    if regions.any (fun r => !r.placeholder) then
      "Session tone and regional risk. Data via Yahoo Finance."
    else "Market data temporarily unavailable."
  [ { name := "Global Markets", direction := globalDirection, description := globalDesc,
      regions := some regions },
    (match d.eurusd with
     | some e =>
       { name := "Currencies",
         direction := if e.change.gtz then "down" else if e.change.ltz then "up" else "flat",
         description :=
           if e.change.gtz then "Dollar strengthening vs euro."
           else if e.change.ltz then "Dollar weakening." else "DXY range-bound." }
     | none => { name := "Currencies", direction := "flat",
                 description := "Forex data temporarily unavailable." }),
    { name := "Bonds & Rates", direction := "flat", description := "Government bonds and credit." },
    { name := "Digital Assets", direction := "flat",
      description := "Fear & Greed reflects crypto sentiment. Add crypto API for live prices." },
    { name := "Commodities", direction := "flat",
      description := "Gold, silver, copper data temporarily unavailable." },
    (match d.xom with
     | some x =>
       { name := "Energy & Materials", direction := pctDir x.changePct,
         description :=
           "Energy (XOM) " ++ signPrefix x.changePct ++ jsToFixed2 x.changePct ++ "%. " ++
             (if pctDir x.changePct = "down" then "Oil pressure."
              else if pctDir x.changePct = "up" then "Commodities firmer." else "Flat.") }
     | none => { name := "Energy & Materials", direction := "flat",
                 description := "Energy data temporarily unavailable." }),
    (match d.qqq with
     | some q =>
       { name := "U.S. Growth & Tech", direction := pctDir q.changePct,
         description :=
           "Nasdaq (QQQ) " ++ signPrefix q.changePct ++ jsToFixed2 q.changePct ++ "%. " ++
             (if pctDir q.changePct = "up" then "Tech leading."
              else if pctDir q.changePct = "down" then "Growth under pressure." else "Mixed.") }
     | none => { name := "U.S. Growth & Tech", direction := "flat",
                 description := "Tech data temporarily unavailable." }),
    { name := "Sector Performance", direction := "flat", description := "S&P 500 sector ETFs." },
    { name := "Real Estate", direction := "flat", description := "REITs and property." },
    { name := "Top Movers", direction := "flat", description := "Biggest gainers and losers." } ]

/-- JS `haystack.includes(needle)` on strings. -/
def jsIncludes (haystack needle : String) : Bool :=
  haystack.toList.tails.any fun t => needle.toList.isPrefixOf t

/-- Models `s.replace(re, empty)` for the anchored pattern of lines
768-769 (optional whitespace, a dash, then one or more non-dash
characters at the end of the string): when the text after the last dash
is non-empty, that dash, its suffix, and the whitespace before the dash
are removed. -/
def stripSourceSuffix (s : String) : String :=
  let parts := s.splitOn "-"
  if parts.length ≤ 1 then s
  else if (parts.getLastD "").isEmpty then s
  else (String.intercalate "-" parts.dropLast).trimRight

/-- The result record of `synthesizeFromNews`: `bigPicture` is `null`
when no headline text was available. -/
structure SynResult where
  bigPicture : Option String
  segments : List Segment
deriving DecidableEq, Repr

/-- `synthesizeFromNews` (lines 761-837). In `main` the second argument
is always the list of `{source, title}` headline records, so the
string-typed branch of `typeof t === "string" ? t : t.title` is not
reachable and the title projection is used directly. -/
def synthesizeFromNews (headlines : List String) (topHeadlines : List Headline) : SynResult :=
  let all := headlines ++ topHeadlines.map (·.title)
  let bigParts :=
    if !all.isEmpty then
      [(stripSourceSuffix (all.headD "")).trim] ++
        (if all.length > 1 then [(stripSourceSuffix (all.getD 1 "")).trim] else [])
    else []
  let bigPicture :=
    if !bigParts.isEmpty then
      some ("Today\x27s focus: " ++ String.intercalate ". " bigParts ++
        ". Markets reacting to headlines.")
    else none
  let lower := (String.intercalate " " all).toLower
  let placeholderRegions : List Region :=
    [ { label := "S&P 500", direction := "flat", placeholder := true },
      { label := "Europe", direction := "flat", placeholder := true },
      { label := "Asia", direction := "flat", placeholder := true },
      { label := "VIX", direction := "steady", vixStyle := true, placeholder := true } ]
  let segments : List Segment :=
    [ { name := "Global Markets", direction := "flat",
        description :=
          if jsIncludes lower "market" || jsIncludes lower "stock" || jsIncludes lower "s&p" then
            "Headlines drive session."
          else "Markets digesting news.",
        regions := some placeholderRegions },
      { name := "Currencies",
        direction :=
          if jsIncludes lower "dollar" || jsIncludes lower "currency" then
            (if jsIncludes lower "hurt" || jsIncludes lower "fall" then "down" else "up")
          else "flat",
        description :=
          if jsIncludes lower "dollar" then "Dollar in focus per headlines." else "FX quiet." },
      { name := "Bonds & Rates", direction := "flat",
        description := "Government bonds and credit." },
      { name := "Digital Assets", direction := "flat",
        description := "Crypto sentiment from Fear & Greed. No live prices." },
      { name := "Commodities", direction := "flat",
        description := "Gold, silver, copper data temporarily unavailable." },
      { name := "Energy & Materials",
        direction :=
          if jsIncludes lower "oil" || jsIncludes lower "commodit" then
            (if jsIncludes lower "retreat" || jsIncludes lower "fall" then "down" else "up")
          else "flat",
        description :=
          if jsIncludes lower "oil" || jsIncludes lower "critical minerals" then
            "Energy and commodities in headlines."
          else "Materials mixed." },
      { name := "U.S. Growth & Tech",
        direction :=
          if jsIncludes lower "tesla" || jsIncludes lower "tech" then
            (if jsIncludes lower "slash" || jsIncludes lower "fall" then "down" else "up")
          else "flat",
        description :=
          if jsIncludes lower "tesla" || jsIncludes lower "tech" then "Tech names in focus."
          else "Growth stocks digesting news." },
      { name := "Sector Performance", direction := "flat",
        description := "S&P 500 sector ETFs." },
      { name := "Real Estate", direction := "flat", description := "REITs and property." },
      { name := "Top Movers", direction := "flat",
        description := "Biggest gainers and losers." } ]
  { bigPicture := bigPicture, segments := segments }

/-- Output of `fetchFearGreed` (lines 278-287) on success. -/
structure FngResult where
  marketMood : String
  fearGreed : FearGreed
deriving DecidableEq, Repr

/-- The pure tail of `fetchFearGreed` (lines 282-284): mood derived from
the parsed integer value and the provider's classification label. -/
def fngFromValue (v : ℤ) (label : String) : FngResult :=
  { marketMood := if v ≥ 55 then "Risk-on" else if v ≤ 45 then "Risk-off" else "Neutral",
    fearGreed := { value := v, label := label } }

/-- Output of `fetchNewsApi` (lines 289-302) on success. -/
structure NewsResult where
  topHeadlines : List Headline
deriving DecidableEq, Repr

/-- The calendar components read off `new Date()` in `main` (line 902):
`getFullYear()`, `getMonth() + 1`, `getDate()`. -/
structure CalendarDay where
  year : Nat
  month : Nat
  day : Nat
deriving DecidableEq, Repr

/-- The `date` stamp of line 903. -/
def formatDate (d : CalendarDay) : String :=
  toString d.year ++ "-" ++ pad2 d.month ++ "-" ++ pad2 d.day

/-- `main` (lines 839-908) up to the point where the record is serialized.
Every provider call enters as the value its `await` would produce:
`avFetch` is the segment list of `fetchAlphaVantage` (only consulted when
`hasAv`, mirroring line 877), `yf` feeds the always-total
`fetchYahooFinanceSegments`, and the three Global Markets candidates feed
the inline priority selection. `loadIso` is the module-load time baked
into `FALLBACK`; `nowIso`/`today` are read from the clock at line 901. -/
def mainModel (fng : Option FngResult) (news : Option NewsResult)
    (hasFmp : Bool) (fmpFetch stooqFetch yahooQuoteFetch : Option GlobalResult)
    (crypto : Option CryptoIn) (commodities : Option Commodities)
    (hasAv : Bool) (avFetch : Option (List Segment)) (yf : YfData)
    (loadIso nowIso : String) (today : CalendarDay) : Briefing :=
  let briefing := FALLBACK loadIso
  let globalMarkets := selectGlobalMarkets hasFmp fmpFetch stooqFetch yahooQuoteFetch
  let briefing :=
    match fng with
    | some f => { briefing with marketMood := f.marketMood, fearGreed := f.fearGreed }
    | none => briefing
  let briefing :=
    match news with
    | some n => { briefing with topHeadlines := n.topHeadlines }
    | none => briefing
  let syn :=
    match news with
    | some _ => some (synthesizeFromNews [] briefing.topHeadlines)
    | none => none
  let briefing :=
    match syn with
    | some s =>
      match s.bigPicture with
      | some bp => { briefing with bigPicture := bp }
      | none => briefing
    | none => briefing
  let av := if hasAv then avFetch else none
  let avUse := match av with | some segs => !segs.isEmpty | none => false
  let yahoo := if !avUse then some (fetchYahooFinanceSegments yf) else none
  let yahooUse := match yahoo with | some segs => !segs.isEmpty | none => false
  let synUse := match syn with | some s => !s.segments.isEmpty | none => false
  let briefing :=
    if avUse then { briefing with segments := av.getD [] }
    else if yahooUse then { briefing with segments := yahoo.getD [] }
    else if synUse then
      { briefing with segments := match syn with | some s => s.segments | none => [] }
    else briefing
  let segs := mergeGlobalMarketsRegions briefing.segments globalMarkets
  let segs := mergeCurrenciesIntoSegments segs
  let segs := mergeBondsRatesIntoSegments segs
  let segs := mergeCryptoIntoSegments segs crypto
  let segs := mergeCommoditiesIntoSegments segs commodities
  let segs := mergeEnergyIntoSegments segs
  let segs := mergeUsGrowthTechIntoSegments segs
  let segs := mergeSectorPerformanceIntoSegments segs
  let segs := mergeRealEstateIntoSegments segs
  let segs := mergeTopMoversIntoSegments segs
  { briefing with segments := segs, updatedAt := nowIso, date := some (formatDate today) }

/-- C1: for every numeric `pct`, the standard-instrument tone classifier
`pctDir` returns "up" when `pct > 0.3`, "down" when `pct < -0.3`, and
"flat" on `[-0.3, 0.3]`; the boundary values `0.3` and `-0.3` map to
"flat", and an absent or non-numeric `pct` maps to "flat". -/
theorem pctDir_threeway_spec :
    (∀ q : ℚ, q > 3/10 → pctDir (.num q) = "up") ∧
    (∀ q : ℚ, q < -(3/10) → pctDir (.num q) = "down") ∧
    (∀ q : ℚ, -(3/10) ≤ q → q ≤ 3/10 → pctDir (.num q) = "flat") ∧
    pctDir (.num (3/10)) = "flat" ∧
    pctDir (.num (-(3/10))) = "flat" ∧
    pctDir .undef = "flat" ∧ pctDir .nan = "flat" := by
  refine ⟨?_, ?_, ?_, by norm_num [pctDir], by norm_num [pctDir], rfl, rfl⟩
  · intro q h
    show (if q > 3/10 then "up" else if q < -(3/10) then "down" else "flat") = "up"
    rw [if_pos h]
  · intro q h
    show (if q > 3/10 then "up" else if q < -(3/10) then "down" else "flat") = "down"
    rw [if_neg (by linarith), if_pos h]
  · intro q h1 h2
    show (if q > 3/10 then "up" else if q < -(3/10) then "down" else "flat") = "flat"
    rw [if_neg (by linarith), if_neg (by linarith)]

/-- Witness for C1 at the concrete inputs 1, -1 and 0. -/
theorem pctDir_threeway_spec_witness :
    pctDir (.num 1) = "up" ∧ pctDir (.num (-1)) = "down" ∧ pctDir (.num 0) = "flat" :=
  ⟨pctDir_threeway_spec.1 1 (by norm_num),
   pctDir_threeway_spec.2.1 (-1) (by norm_num),
   pctDir_threeway_spec.2.2.1 0 (by norm_num) (by norm_num)⟩

/-- C2 counterexample: the five-band classifier `toneFromPct` and the
three-way rule `pctDir` are not extensionally equal — at `pct = 0.2`
the former returns "up" and the latter "flat". -/
theorem toneFromPct_ne_pctDir_counterexample :
    toneFromPct (.num (2/10)) = "up" ∧ pctDir (.num (2/10)) = "flat" ∧
    ¬ (∀ p : JNum, toneFromPct p = pctDir p) := by
  refine ⟨by norm_num [toneFromPct], by norm_num [pctDir], ?_⟩
  intro h
  have h1 := h (.num (2/10))
  rw [show toneFromPct (.num (2/10)) = "up" from by norm_num [toneFromPct],
      show pctDir (.num (2/10)) = "flat" from by norm_num [pctDir]] at h1
  exact absurd h1 (by decide)

/-- Reduced form of the five bands of `toneFromPct`: the two "up" bands
and the two "down" bands collapse. -/
theorem toneFromPct_eq_bands (q : ℚ) :
    toneFromPct (.num q) =
      if 15/100 ≤ q then "up" else if -(15/100) ≤ q then "flat" else "down" := by
  show (if q ≥ 1/2 then "up" else if q ≥ 15/100 then "up"
        else if q ≥ -(15/100) then "flat" else if q ≥ -(49/100) then "down" else "down") = _
  split_ifs <;> first | rfl | linarith

/-- C2 amended: `toneFromPct` does collapse to the same three-value
output vocabulary as `pctDir`, and the two agree on absent/non-numeric
input, but they are extensionally equal only outside the two bands
`[0.15, 0.3]` (where `toneFromPct` says "up" and `pctDir` "flat") and
`[-0.3, -0.15)` (where `toneFromPct` says "down" and `pctDir` "flat"). -/
theorem toneFromPct_vs_pctDir_amended :
    (∀ p : JNum, toneFromPct p = "up" ∨ toneFromPct p = "down" ∨ toneFromPct p = "flat") ∧
    toneFromPct .undef = pctDir .undef ∧ toneFromPct .nan = pctDir .nan ∧
    (∀ q : ℚ,
      toneFromPct (.num q) = pctDir (.num q) ↔
        ¬ ((15/100 ≤ q ∧ q ≤ 3/10) ∨ (-(3/10) ≤ q ∧ q < -(15/100)))) := by
  refine ⟨?_, rfl, rfl, ?_⟩
  · intro p
    cases p with
    | num q =>
      rw [toneFromPct_eq_bands]
      split_ifs <;> simp
    | undef => simp [toneFromPct]
    | nan => simp [toneFromPct]
  · intro q
    rw [toneFromPct_eq_bands]
    show (_ = if q > 3/10 then "up" else if q < -(3/10) then "down" else "flat") ↔ _
    split_ifs <;>
      first
        | exact (by linarith : False).elim
        | exact iff_of_true rfl (by push_neg; constructor <;> intro hz <;> linarith)
        | exact iff_of_false (by decide) (not_not_intro (Or.inl ⟨by linarith, by linarith⟩))
        | exact iff_of_false (by decide) (not_not_intro (Or.inr ⟨by linarith, by linarith⟩))

/-- Witness for C2's amended theorem at the concrete input 1. -/
theorem toneFromPct_vs_pctDir_amended_witness :
    toneFromPct (.num 1) = pctDir (.num 1) :=
  (toneFromPct_vs_pctDir_amended.2.2.2 1).mpr (by norm_num)

/-- C8: the volatility-style classifiers invert direction sense — a
rising 0.5% change classifies as "elevated" and a falling -0.5% change
as "subdued" (for both the banded `vixToneFromPct` and the three-way
`vixLabel`, whose thresholds are ±0.3); any change beyond ±0.3 keeps
that inverted sense, and an absent or non-numeric `pct` classifies as
"steady". -/
theorem vix_classifier_inverts :
    vixToneFromPct (.num (1/2)) = "elevated" ∧ vixToneFromPct (.num (-(1/2))) = "subdued" ∧
    vixLabel (.num (1/2)) = "elevated" ∧ vixLabel (.num (-(1/2))) = "subdued" ∧
    vixToneFromPct .undef = "steady" ∧ vixToneFromPct .nan = "steady" ∧
    vixLabel .undef = "steady" ∧ vixLabel .nan = "steady" ∧
    (∀ q : ℚ, q > 3/10 → vixToneFromPct (.num q) = "elevated" ∧ vixLabel (.num q) = "elevated") ∧
    (∀ q : ℚ, q < -(3/10) → vixToneFromPct (.num q) = "subdued" ∧ vixLabel (.num q) = "subdued") := by
  refine ⟨by norm_num [vixToneFromPct], by norm_num [vixToneFromPct],
          by norm_num [vixLabel], by norm_num [vixLabel], rfl, rfl, rfl, rfl, ?_, ?_⟩
  · intro q h
    constructor
    · show (if q ≥ 1/2 then "elevated" else if q ≥ 15/100 then "elevated"
            else if q ≥ -(15/100) then "steady"
            else if q ≥ -(49/100) then "subdued" else "subdued") = "elevated"
      split_ifs <;> first | rfl | linarith
    · show (if q > 3/10 then "elevated" else if q < -(3/10) then "subdued" else "steady") =
        "elevated"
      rw [if_pos h]
  · intro q h
    constructor
    · show (if q ≥ 1/2 then "elevated" else if q ≥ 15/100 then "elevated"
            else if q ≥ -(15/100) then "steady"
            else if q ≥ -(49/100) then "subdued" else "subdued") = "subdued"
      split_ifs <;> first | rfl | linarith
    · show (if q > 3/10 then "elevated" else if q < -(3/10) then "subdued" else "steady") =
        "subdued"
      rw [if_neg (by linarith), if_pos h]

/-- Witness for C8 at the concrete inputs 1 and -1. -/
theorem vix_classifier_inverts_witness :
    vixToneFromPct (.num 1) = "elevated" ∧ vixLabel (.num (-1)) = "subdued" :=
  ⟨(vix_classifier_inverts.2.2.2.2.2.2.2.2.1 1 (by norm_num)).1,
   (vix_classifier_inverts.2.2.2.2.2.2.2.2.2 (-1) (by norm_num)).2⟩

/-- Helper: getElem? through the empty-guarded map used by every merge
function. -/
theorem guardMap_getElem (g : Segment → Segment) (l : List Segment) (i : Nat) :
    (if l.isEmpty then l else l.map g)[i]? = (l[i]?).map g := by
  by_cases h : l.isEmpty
  · cases l with
    | nil => simp
    | cons a t => simp at h
  · rw [if_neg h, List.getElem?_map]

/-- Helper: length through the empty-guarded map. -/
theorem guardMap_length (g : Segment → Segment) (l : List Segment) :
    (if l.isEmpty then l else l.map g).length = l.length := by
  by_cases h : l.isEmpty
  · rw [if_pos h]
  · rw [if_neg h, List.length_map]

/-- C3: the Global Markets quote category tries FMP (only when its key is
configured), then Stooq, then Yahoo, accepting a candidate only when it
has at least one non-placeholder region; in particular an all-placeholder
primary loses to a secondary holding one real value. -/
theorem selectGlobalMarkets_priority :
    (∀ (hasFmp : Bool) (fmp stooq yahoo : Option GlobalResult),
      selectGlobalMarkets hasFmp fmp stooq yahoo =
        if globalUsable (if hasFmp then fmp else none) then (if hasFmp then fmp else none)
        else if globalUsable stooq then stooq else yahoo) ∧
    (∀ (hasFmp : Bool) (g1 g2 : GlobalResult) (yahoo : Option GlobalResult),
      (∀ r ∈ g1.regions, r.placeholder = true) →
      g2.regions ≠ [] →
      (∃ r ∈ g2.regions, r.placeholder = false) →
      selectGlobalMarkets hasFmp (some g1) (some g2) yahoo = some g2) := by
  constructor
  · intro hasFmp fmp stooq yahoo
    unfold selectGlobalMarkets
    by_cases h0 : globalUsable (if hasFmp then fmp else none) <;>
      by_cases h1 : globalUsable stooq <;>
        simp [h0, h1]
  · intro hasFmp g1 g2 yahoo hAllPh hNe ⟨r0, hr0, hr0p⟩
    have hU1 : globalUsable (some g1) = false := by
      simp only [globalUsable, Bool.and_eq_false_iff]
      right
      simp only [List.any_eq_false]
      intro r hr
      simp [hAllPh r hr]
    have hU2 : globalUsable (some g2) = true := by
      simp only [globalUsable, Bool.and_eq_true]
      constructor
      · cases hg : g2.regions with
        | nil => exact absurd hg hNe
        | cons a t => simp [hg]
      · simp only [List.any_eq_true]
        exact ⟨r0, hr0, by simp [hr0p]⟩
    have h0 : globalUsable (if hasFmp then some g1 else none) = false := by
      cases hasFmp
      · rfl
      · simpa using hU1
    unfold selectGlobalMarkets
    simp [h0, hU2]

/-- Witness for C3 at concrete providers: an all-placeholder FMP result
against a Stooq result with one real region. -/
theorem selectGlobalMarkets_priority_witness :
    selectGlobalMarkets true
      (some { regions := [{ label := "S&P 500", direction := "flat", placeholder := true }],
              direction := "flat", description := "fmp" })
      (some { regions := [{ label := "S&P 500", direction := "up", changePct := .num 1,
                            placeholder := false }],
              direction := "up", description := "stooq" })
      none =
      some { regions := [{ label := "S&P 500", direction := "up", changePct := .num 1,
                           placeholder := false }],
             direction := "up", description := "stooq" } :=
  selectGlobalMarkets_priority.2 true _ _ none (by decide) (by decide)
    ⟨{ label := "S&P 500", direction := "up", changePct := .num 1, placeholder := false },
     by decide, rfl⟩

/-- C4: when every Global Markets candidate is rejected (absent result,
no regions, or all-placeholder regions), the merge gives the segment the
static named-only outline, whose entries are all flagged placeholder and
carry no numeric change value. -/
theorem mergeGlobalMarkets_static_fallback :
    (∀ (segments : List Segment) (globalData : Option GlobalResult),
      (globalData = none ∨
        ∃ g, globalData = some g ∧ (g.regions = [] ∨ ∀ r ∈ g.regions, r.placeholder = true)) →
      ∀ (i : Nat) (seg : Segment), segments[i]? = some seg → seg.name = "Global Markets" →
        (mergeGlobalMarketsRegions segments globalData)[i]? =
          some { seg with regions := some GLOBAL_MARKETS_PLACEHOLDERS,
                          description :=
                            "Session tone and regional risk across major indices." }) ∧
    (∀ r ∈ GLOBAL_MARKETS_PLACEHOLDERS, r.placeholder = true ∧ r.changePct = .undef) := by
  constructor
  · intro segments globalData hrej i seg hi hname
    have hU : globalUsable globalData = false := by
      rcases hrej with h | ⟨g, rfl, h | h⟩
      · rw [h]; rfl
      · simp [globalUsable, h]
      · simp only [globalUsable, Bool.and_eq_false_iff]
        right
        simp only [List.any_eq_false]
        intro r hr
        simp [h r hr]
    unfold mergeGlobalMarketsRegions
    rw [guardMap_getElem, hi]
    simp [hname, hU]
  · decide

/-- Witness for C4 at a concrete one-segment list and an absent result. -/
theorem mergeGlobalMarkets_static_fallback_witness :
    (mergeGlobalMarketsRegions
        [{ name := "Global Markets", direction := "flat", description := "d" }] none)[0]? =
      some { name := "Global Markets", direction := "flat", description :=
               "Session tone and regional risk across major indices.",
             regions := some GLOBAL_MARKETS_PLACEHOLDERS } :=
  mergeGlobalMarkets_static_fallback.1
    [{ name := "Global Markets", direction := "flat", description := "d" }] none
    (Or.inl rfl) 0 _ rfl rfl

/-- Helper: a merge map leaves an entry fixed by its mapper unchanged. -/
theorem guardMap_frame (g : Segment → Segment) (l : List Segment) (i : Nat) (seg : Segment)
    (hi : l[i]? = some seg) (hg : g seg = seg) :
    (if l.isEmpty then l else l.map g)[i]? = some seg := by
  rw [guardMap_getElem, hi]
  simp [hg]

/-- Helper: applying an empty-guarded map twice with an idempotent mapper
equals applying it once. -/
theorem guardMap_twice (g : Segment → Segment) (hg : ∀ s, g (g s) = g s) (l : List Segment) :
    (if (if l.isEmpty then l else l.map g).isEmpty then (if l.isEmpty then l else l.map g)
     else (if l.isEmpty then l else l.map g).map g) = (if l.isEmpty then l else l.map g) := by
  by_cases h : l.isEmpty
  · simp [h]
  · have h2 : (l.map g).isEmpty = false := by cases l <;> simp_all
    rw [if_neg h, if_neg (by simp [h2]), List.map_map]
    exact List.map_congr_left fun a _ => hg a

/-- C6: each per-category merge function preserves the length (hence the
order) of the segment list and passes every segment whose name is not its
own category through unchanged, index by index. -/
theorem merge_functions_frame :
    (∀ segments commodities, (mergeCommoditiesIntoSegments segments commodities).length =
      segments.length) ∧
    (∀ (segments : List Segment) (commodities : Option Commodities) (i : Nat) (seg : Segment),
      segments[i]? = some seg → seg.name ≠ "Commodities" →
      (mergeCommoditiesIntoSegments segments commodities)[i]? = some seg) ∧
    (∀ segments crypto, (mergeCryptoIntoSegments segments crypto).length = segments.length) ∧
    (∀ (segments : List Segment) (crypto : Option CryptoIn) (i : Nat) (seg : Segment),
      segments[i]? = some seg → seg.name ≠ "Digital Assets" →
      (mergeCryptoIntoSegments segments crypto)[i]? = some seg) ∧
    (∀ segments globalData, (mergeGlobalMarketsRegions segments globalData).length =
      segments.length) ∧
    (∀ (segments : List Segment) (globalData : Option GlobalResult) (i : Nat) (seg : Segment),
      segments[i]? = some seg → seg.name ≠ "Global Markets" →
      (mergeGlobalMarketsRegions segments globalData)[i]? = some seg) ∧
    (∀ segments, (mergeCurrenciesIntoSegments segments).length = segments.length) ∧
    (∀ (segments : List Segment) (i : Nat) (seg : Segment),
      segments[i]? = some seg → seg.name ≠ "Currencies" →
      (mergeCurrenciesIntoSegments segments)[i]? = some seg) ∧
    (∀ segments, (mergeBondsRatesIntoSegments segments).length = segments.length) ∧
    (∀ (segments : List Segment) (i : Nat) (seg : Segment),
      segments[i]? = some seg → seg.name ≠ "Bonds & Rates" →
      (mergeBondsRatesIntoSegments segments)[i]? = some seg) ∧
    (∀ segments, (mergeEnergyIntoSegments segments).length = segments.length) ∧
    (∀ (segments : List Segment) (i : Nat) (seg : Segment),
      segments[i]? = some seg → seg.name ≠ "Energy & Materials" →
      (mergeEnergyIntoSegments segments)[i]? = some seg) ∧
    (∀ segments, (mergeUsGrowthTechIntoSegments segments).length = segments.length) ∧
    (∀ (segments : List Segment) (i : Nat) (seg : Segment),
      segments[i]? = some seg → seg.name ≠ "U.S. Growth & Tech" →
      (mergeUsGrowthTechIntoSegments segments)[i]? = some seg) ∧
    (∀ segments, (mergeSectorPerformanceIntoSegments segments).length = segments.length) ∧
    (∀ (segments : List Segment) (i : Nat) (seg : Segment),
      segments[i]? = some seg → seg.name ≠ "Sector Performance" →
      (mergeSectorPerformanceIntoSegments segments)[i]? = some seg) ∧
    (∀ segments, (mergeRealEstateIntoSegments segments).length = segments.length) ∧
    (∀ (segments : List Segment) (i : Nat) (seg : Segment),
      segments[i]? = some seg → seg.name ≠ "Real Estate" →
      (mergeRealEstateIntoSegments segments)[i]? = some seg) ∧
    (∀ segments, (mergeTopMoversIntoSegments segments).length = segments.length) ∧
    (∀ (segments : List Segment) (i : Nat) (seg : Segment),
      segments[i]? = some seg → seg.name ≠ "Top Movers" →
      (mergeTopMoversIntoSegments segments)[i]? = some seg) := by
  refine ⟨?_, ?_, ?_, ?_, ?_, ?_, ?_, ?_, ?_, ?_, ?_, ?_, ?_, ?_, ?_, ?_, ?_, ?_, ?_, ?_⟩
  · intro segments x
    unfold mergeCommoditiesIntoSegments
    exact guardMap_length _ _
  · intro segments x i seg hi hn
    unfold mergeCommoditiesIntoSegments
    refine guardMap_frame _ _ _ _ hi ?_
    simp [hn]
  · intro segments x
    unfold mergeCryptoIntoSegments
    exact guardMap_length _ _
  · intro segments x i seg hi hn
    unfold mergeCryptoIntoSegments
    refine guardMap_frame _ _ _ _ hi ?_
    simp [hn]
  · intro segments x
    unfold mergeGlobalMarketsRegions
    exact guardMap_length _ _
  · intro segments x i seg hi hn
    unfold mergeGlobalMarketsRegions
    refine guardMap_frame _ _ _ _ hi ?_
    simp [hn]
  · intro segments
    unfold mergeCurrenciesIntoSegments
    exact guardMap_length _ _
  · intro segments i seg hi hn
    unfold mergeCurrenciesIntoSegments
    refine guardMap_frame _ _ _ _ hi ?_
    simp [hn]
  · intro segments
    unfold mergeBondsRatesIntoSegments
    exact guardMap_length _ _
  · intro segments i seg hi hn
    unfold mergeBondsRatesIntoSegments
    refine guardMap_frame _ _ _ _ hi ?_
    simp [hn]
  · intro segments
    unfold mergeEnergyIntoSegments
    exact guardMap_length _ _
  · intro segments i seg hi hn
    unfold mergeEnergyIntoSegments
    refine guardMap_frame _ _ _ _ hi ?_
    simp [hn]
  · intro segments
    unfold mergeUsGrowthTechIntoSegments
    exact guardMap_length _ _
  · intro segments i seg hi hn
    unfold mergeUsGrowthTechIntoSegments
    refine guardMap_frame _ _ _ _ hi ?_
    simp [hn]
  · intro segments
    unfold mergeSectorPerformanceIntoSegments
    exact guardMap_length _ _
  · intro segments i seg hi hn
    unfold mergeSectorPerformanceIntoSegments
    refine guardMap_frame _ _ _ _ hi ?_
    simp [hn]
  · intro segments
    unfold mergeRealEstateIntoSegments
    exact guardMap_length _ _
  · intro segments i seg hi hn
    unfold mergeRealEstateIntoSegments
    refine guardMap_frame _ _ _ _ hi ?_
    simp [hn]
  · intro segments
    unfold mergeTopMoversIntoSegments
    exact guardMap_length _ _
  · intro segments i seg hi hn
    unfold mergeTopMoversIntoSegments
    refine guardMap_frame _ _ _ _ hi ?_
    simp [hn]

/-- Witness for C6 at a concrete two-segment list: merging crypto or
commodities data leaves the unrelated segment at index 0 unchanged. -/
theorem merge_functions_frame_witness :
    (mergeCryptoIntoSegments
        [{ name := "Currencies", direction := "flat", description := "c" },
         { name := "Digital Assets", direction := "flat", description := "d" }] none)[0]? =
      some { name := "Currencies", direction := "flat", description := "c" } ∧
    (mergeCommoditiesIntoSegments
        [{ name := "Currencies", direction := "flat", description := "c" },
         { name := "Digital Assets", direction := "flat", description := "d" }] none).length =
      2 := by
  constructor
  · exact merge_functions_frame.2.2.2.1
      [{ name := "Currencies", direction := "flat", description := "c" },
       { name := "Digital Assets", direction := "flat", description := "d" }] none 0 _ rfl
      (by decide)
  · exact merge_functions_frame.1
      [{ name := "Currencies", direction := "flat", description := "c" },
       { name := "Digital Assets", direction := "flat", description := "d" }] none

/-- C7: every per-category merge function is idempotent — applying it
twice with the same provider output yields the same segment list as
applying it once, so no duplicate tickers can accumulate. -/
theorem merge_functions_idempotent :
    (∀ segments commodities,
      mergeCommoditiesIntoSegments (mergeCommoditiesIntoSegments segments commodities)
        commodities = mergeCommoditiesIntoSegments segments commodities) ∧
    (∀ segments crypto,
      mergeCryptoIntoSegments (mergeCryptoIntoSegments segments crypto) crypto =
        mergeCryptoIntoSegments segments crypto) ∧
    (∀ segments globalData,
      mergeGlobalMarketsRegions (mergeGlobalMarketsRegions segments globalData) globalData =
        mergeGlobalMarketsRegions segments globalData) ∧
    (∀ segments, mergeCurrenciesIntoSegments (mergeCurrenciesIntoSegments segments) =
      mergeCurrenciesIntoSegments segments) ∧
    (∀ segments, mergeBondsRatesIntoSegments (mergeBondsRatesIntoSegments segments) =
      mergeBondsRatesIntoSegments segments) ∧
    (∀ segments, mergeEnergyIntoSegments (mergeEnergyIntoSegments segments) =
      mergeEnergyIntoSegments segments) ∧
    (∀ segments, mergeUsGrowthTechIntoSegments (mergeUsGrowthTechIntoSegments segments) =
      mergeUsGrowthTechIntoSegments segments) ∧
    (∀ segments, mergeSectorPerformanceIntoSegments (mergeSectorPerformanceIntoSegments
      segments) = mergeSectorPerformanceIntoSegments segments) ∧
    (∀ segments, mergeRealEstateIntoSegments (mergeRealEstateIntoSegments segments) =
      mergeRealEstateIntoSegments segments) ∧
    (∀ segments, mergeTopMoversIntoSegments (mergeTopMoversIntoSegments segments) =
      mergeTopMoversIntoSegments segments) := by
  refine ⟨?_, ?_, ?_, ?_, ?_, ?_, ?_, ?_, ?_, ?_⟩
  · intro segments x
    unfold mergeCommoditiesIntoSegments
    refine guardMap_twice _ ?_ segments
    intro seg
    by_cases h : seg.name = "Commodities" <;> simp [h]
  · intro segments x
    unfold mergeCryptoIntoSegments
    refine guardMap_twice _ ?_ segments
    intro seg
    by_cases h : seg.name = "Digital Assets" <;> simp [h]
  · intro segments x
    unfold mergeGlobalMarketsRegions
    refine guardMap_twice _ ?_ segments
    intro seg
    by_cases h : seg.name = "Global Markets"
    · rcases x with _ | g
      · simp [h, globalUsable]
      · by_cases hg : globalUsable (some g) <;> simp [h, hg]
    · simp [h]
  · intro segments
    unfold mergeCurrenciesIntoSegments
    refine guardMap_twice _ ?_ segments
    intro seg
    by_cases h : seg.name = "Currencies" <;> simp [h]
  · intro segments
    unfold mergeBondsRatesIntoSegments
    refine guardMap_twice _ ?_ segments
    intro seg
    by_cases h : seg.name = "Bonds & Rates" <;> simp [h]
  · intro segments
    unfold mergeEnergyIntoSegments
    refine guardMap_twice _ ?_ segments
    intro seg
    by_cases h : seg.name = "Energy & Materials" <;> simp [h]
  · intro segments
    unfold mergeUsGrowthTechIntoSegments
    refine guardMap_twice _ ?_ segments
    intro seg
    by_cases h : seg.name = "U.S. Growth & Tech" <;> simp [h]
  · intro segments
    unfold mergeSectorPerformanceIntoSegments
    refine guardMap_twice _ ?_ segments
    intro seg
    by_cases h : seg.name = "Sector Performance" <;> simp [h]
  · intro segments
    unfold mergeRealEstateIntoSegments
    refine guardMap_twice _ ?_ segments
    intro seg
    by_cases h : seg.name = "Real Estate" <;> simp [h]
  · intro segments
    unfold mergeTopMoversIntoSegments
    refine guardMap_twice _ ?_ segments
    intro seg
    by_cases h : seg.name = "Top Movers" <;> simp [h]

/-- Helper: a JS value is not null/NaN exactly when it is a number. -/
theorem JNum.isBad_false_iff (x : JNum) : x.isBad = false ↔ ∃ q, x = .num q := by
  cases x <;> simp [JNum.isBad]

/-- C10: when the crypto provider result is absent or lacks BTC or ETH,
`mergeCryptoIntoSegments` still unconditionally overwrites the Digital
Assets segment: direction "flat", the bare sentiment description, and
exactly the five name-only additional crypto tickers, discarding whatever
the segment held before. -/
theorem mergeCrypto_overwrites_on_missing :
    (∀ (segments : List Segment) (crypto : Option CryptoIn) (i : Nat) (seg : Segment),
      segments[i]? = some seg → seg.name = "Digital Assets" →
      (crypto = none ∨ ∃ c, crypto = some c ∧ (c.btc = none ∨ c.eth = none)) →
      (mergeCryptoIntoSegments segments crypto)[i]? =
        some { seg with direction := "flat", description := "Fear & Greed for sentiment.",
                        tickers := some DIGITAL_ASSETS_ADDITIONAL }) ∧
    DIGITAL_ASSETS_ADDITIONAL.map Ticker.symbol = ["DOGE", "SOL", "XRP", "ADA", "AVAX"] ∧
    (∀ t ∈ DIGITAL_ASSETS_ADDITIONAL, t.price = .undef ∧ t.changePct = .undef) := by
  refine ⟨?_, by decide, by decide⟩
  intro segments crypto i seg hi hname hmiss
  rcases hmiss with rfl | ⟨c, rfl, hc⟩
  · unfold mergeCryptoIntoSegments
    rw [guardMap_getElem, hi]
    simp [hname]
  · unfold mergeCryptoIntoSegments
    rw [guardMap_getElem, hi]
    rcases hc with hb | he
    · simp [hname, hb]
    · rcases hb2 : c.btc with _ | b
      · simp [hname, hb2]
      · simp [hname, hb2, he]

/-- Witness for C10 at a concrete one-segment list and an absent crypto
result. -/
theorem mergeCrypto_overwrites_on_missing_witness :
    (mergeCryptoIntoSegments
        [{ name := "Digital Assets", direction := "up", description := "old",
           tickers := some [{ symbol := "BTC/USD", name := "Bitcoin" }] }] none)[0]? =
      some { name := "Digital Assets", direction := "flat",
             description := "Fear & Greed for sentiment.",
             tickers := some DIGITAL_ASSETS_ADDITIONAL } :=
  mergeCrypto_overwrites_on_missing.1
    [{ name := "Digital Assets", direction := "up", description := "old",
       tickers := some [{ symbol := "BTC/USD", name := "Bitcoin" }] }] none 0 _ rfl rfl
    (Or.inl rfl)

/-- C9 counterexample: the Alpha Vantage client can emit a region whose
placeholder flag is false yet whose changePct is not a number — a quote
whose change string parses but whose change-percent field parses to NaN
(here: the S&P 500 entry). -/
theorem region_invariant_counterexample :
    ∃ r ∈ avRegions (some { change := .num 1, changePct := .nan, price := .num 100 })
        none none none none,
      r.placeholder = false ∧ r.changePct.isBad = true := by decide

/-- Helper: the shared region-construction tail satisfies the
placeholder-iff-non-numeric invariant by construction. -/
theorem regionFromPct_inv (label : String) (v : Bool) (pct : JNum) :
    ((regionFromPct label v pct).placeholder = true ↔
      (regionFromPct label v pct).changePct.isBad = true) := by
  unfold regionFromPct
  by_cases h : pct.isBad = true
  · rw [if_pos h]
    exact iff_of_true rfl rfl
  · rw [if_neg h]
    exact iff_of_false (by simp) h

/-- C9 amended: every region built by the FMP, Stooq, and Yahoo quote
clients, and every entry of the static placeholder outline, satisfies
`placeholder = true` iff `changePct` is not a number; the Alpha Vantage
client satisfies the invariant only under the extra premise that every
quote it received parsed to a numeric change-percent (without it, a NaN
percent yields a non-placeholder region with no numeric changePct). -/
theorem region_placeholder_iff_amended :
    (∀ (bySymbol : String → Option FmpQuote), ∀ r ∈ fmpRegions bySymbol,
      (r.placeholder = true ↔ r.changePct.isBad = true)) ∧
    (∀ (results : List StooqResult), ∀ r ∈ stooqRegions results,
      (r.placeholder = true ↔ r.changePct.isBad = true)) ∧
    (∀ (bySymbol : String → Option YQuote), ∀ r ∈ yahooQuoteRegions bySymbol,
      (r.placeholder = true ↔ r.changePct.isBad = true)) ∧
    (∀ r ∈ GLOBAL_MARKETS_PLACEHOLDERS, (r.placeholder = true ↔ r.changePct.isBad = true)) ∧
    (∀ (spy vgk ewj ewh vxx : Option QuoteResult),
      (∀ x ∈ [spy, vgk, ewj, ewh, vxx], ∀ a, x = some a → a.changePct.isBad = false) →
      ∀ r ∈ avRegions spy vgk ewj ewh vxx,
        (r.placeholder = true ↔ r.changePct.isBad = true)) := by
  refine ⟨?_, ?_, ?_, by decide, ?_⟩
  · intro bySymbol r hr
    simp only [fmpRegions, List.mem_map] at hr
    obtain ⟨s, _, rfl⟩ := hr
    rcases hq : bySymbol s.1 with _ | q
    · simp [fmpRegion, hq, JNum.isBad]
    · exact regionFromPct_inv _ _ _
  · intro results r hr
    simp only [stooqRegions, List.mem_map] at hr
    obtain ⟨s, _, rfl⟩ := hr
    rcases hf : results.find? (fun x => x.symbol = s.1) with _ | t <;>
      simp [hf, JNum.isBad]
  · intro bySymbol r hr
    simp only [yahooQuoteRegions, List.mem_map] at hr
    obtain ⟨s, _, rfl⟩ := hr
    rcases hq : bySymbol s.1 with _ | q
    · simp [yahooQuoteRegion, hq, JNum.isBad]
    · exact regionFromPct_inv _ _ _
  · intro spy vgk ewj ewh vxx hnum r hr
    simp only [avRegions, List.mem_cons, List.not_mem_nil, or_false] at hr
    rcases hr with rfl | rfl | rfl | rfl
    · rcases spy with _ | s
      · simp [JNum.isBad]
      · have h1 : s.changePct.isBad = false := hnum (some s) (by simp) s rfl
        simp [h1]
    · rcases vgk with _ | v
      · simp [JNum.isBad]
      · have h1 : v.changePct.isBad = false := hnum (some v) (by simp) v rfl
        simp [h1]
    · rcases ewj with _ | j
      · rcases ewh with _ | h2
        · simp [JNum.isBad]
        · have h1 : h2.changePct.isBad = false := hnum (some h2) (by simp) h2 rfl
          simp [h1]
      · rcases ewh with _ | h2
        · have h1 : j.changePct.isBad = false := hnum (some j) (by simp) j rfl
          simp [h1]
        · have h1 : j.changePct.isBad = false := hnum (some j) (by simp) j rfl
          have h3 : h2.changePct.isBad = false := hnum (some h2) (by simp) h2 rfl
          obtain ⟨a, ha⟩ := (JNum.isBad_false_iff _).mp h1
          obtain ⟨b, hb⟩ := (JNum.isBad_false_iff _).mp h3
          norm_num [ha, hb, JNum.add, JNum.div, JNum.isBad]
    · rcases vxx with _ | v
      · simp [JNum.isBad]
      · have h1 : v.changePct.isBad = false := hnum (some v) (by simp) v rfl
        simp [h1]

/-- Witness for C9's amended theorem at concrete inputs: the FMP client
with an empty response, and the Alpha Vantage client on an all-numeric
single quote. -/
theorem region_placeholder_iff_amended_witness :
    ((fmpRegions fun _ => none).headD
        { label := "", direction := "" }).placeholder = true ∧
    ∀ r ∈ avRegions none none none none none,
      (r.placeholder = true ↔ r.changePct.isBad = true) := by
  constructor
  · have h := region_placeholder_iff_amended.1 (fun _ => none)
      ((fmpRegions fun _ => none).headD { label := "", direction := "" }) (by decide)
    exact h.mpr (by decide)
  · exact region_placeholder_iff_amended.2.2.2.2 none none none none none
      (by intro x hx a hxa
          simp only [List.mem_cons, List.not_mem_nil, or_false] at hx
          rcases hx with rfl | rfl | rfl | rfl | rfl <;> exact Option.noConfusion hxa)

set_option maxHeartbeats 2000000 in
/-- C5 counterexample: with every provider absent the final record does
NOT retain the baseline `segments` value — the segment list is rebuilt
(the tertiary segment provider's no-data outline plus the merge steps
rewrite regions, tickers, and several descriptions). -/
theorem mainModel_allAbsent_segments_not_baseline :
    (mainModel none none false none none none none none false none {} "L" "N"
        { year := 2026, month := 1, day := 2 }).segments ≠ (FALLBACK "L").segments := by decide

set_option maxHeartbeats 2000000 in
/-- C5 amended: with every provider fetch absent (zero network, no API
keys) the Assembler still produces a well-formed record: it retains the
baseline values for bigPicture, marketMood, fearGreed, and both headline
lists; its segment list (rebuilt from the tertiary provider's no-data
outline and the merge steps, not retained verbatim from the baseline)
carries the full fixed set of ten category names in the fixed order; and
it is stamped with the run timestamp and a YYYY-MM-DD date. -/
theorem mainModel_allAbsent_wellformed :
    ∀ (loadIso nowIso : String) (today : CalendarDay),
      (mainModel none none false none none none none none false none {} loadIso nowIso
          today).bigPicture = (FALLBACK loadIso).bigPicture ∧
      (mainModel none none false none none none none none false none {} loadIso nowIso
          today).marketMood = (FALLBACK loadIso).marketMood ∧
      (mainModel none none false none none none none none false none {} loadIso nowIso
          today).fearGreed = (FALLBACK loadIso).fearGreed ∧
      (mainModel none none false none none none none none false none {} loadIso nowIso
          today).trendingNews = (FALLBACK loadIso).trendingNews ∧
      (mainModel none none false none none none none none false none {} loadIso nowIso
          today).topHeadlines = (FALLBACK loadIso).topHeadlines ∧
      (mainModel none none false none none none none none false none {} loadIso nowIso
          today).segments.map Segment.name =
        ["Global Markets", "Currencies", "Bonds & Rates", "Digital Assets", "Commodities",
         "Energy & Materials", "U.S. Growth & Tech", "Sector Performance", "Real Estate",
         "Top Movers"] ∧
      (mainModel none none false none none none none none false none {} loadIso nowIso
          today).updatedAt = nowIso ∧
      (mainModel none none false none none none none none false none {} loadIso nowIso
          today).date = some (formatDate today) := by
  intro loadIso nowIso today
  exact ⟨rfl, rfl, rfl, rfl, rfl, rfl, rfl, rfl⟩
